import Mathlib

/-!
Verification development for the P2Pro thermal-camera viewer.

Shallow embedding of the core logic of `src/P2Pro/video.py` and
`src/P2Pro/recorder.py`:

* the frame decode step inside `Video.open` (split the raw buffer at its
  midpoint, YUY2 to RGB conversion of the upper half, 16-bit reinterpretation
  of the lower half),
* `FFMpegCapture.read` and the read/decode/publish loop of `Video.open`,
* the capacity-1 drop-oldest queue publishing,
* `VideoRecorder.rec_thread` / `start` / `stop` and the temp-file cleanup,
* `AudioRecorder.stop` / `_write_to_wavefile`.

Byte buffers are modelled as `List Nat` (each element a byte value), machine
16-bit values as `Nat` below `2 ^ 16`, and Python exceptions as `Except` /
`Option` results.
-/

/-- Constant `P2Pro_resolution = (256, 384)` from `video.py`. -/
def P2Pro_resolution : Nat × Nat := (256, 384)

/-- Constant `P2Pro_fps = 25.0` from `video.py` (the float is exactly 25). -/
def P2Pro_fps : ℚ := 25

/-- The raw frame size in bytes: width * height * 2 (YUY2 is 2 bytes per
pixel), as computed in `FFMpegCapture.__init__` for `convert_rgb=False`. -/
def expectedFrameSize : Nat := 256 * 384 * 2

/-- The decoded frame object built in `Video.open` (`frame_obj` dict):
sequence number, RGB picture, raw YUV picture bytes, thermal 16-bit values. -/
structure Frame where
  frame_num : Nat
  rgb_data : List (Nat × Nat × Nat)
  yuv_data : List Nat
  thermal_data : List Nat
deriving DecidableEq

/-- Saturating cast of an integer to an unsigned byte (OpenCV
`saturate_cast<uchar>`). -/
def clamp255 (x : Int) : Nat := (max 0 (min 255 x)).toNat

/-- ITU-R BT.601 fixed-point luma coefficient used by OpenCV. -/
def ITUR_BT_601_CY : Int := 1220542

/-- ITU-R BT.601 fixed-point blue-chroma coefficient used by OpenCV. -/
def ITUR_BT_601_CUB : Int := 2116026

/-- ITU-R BT.601 fixed-point green/U coefficient used by OpenCV. -/
def ITUR_BT_601_CUG : Int := -409993

/-- ITU-R BT.601 fixed-point green/V coefficient used by OpenCV. -/
def ITUR_BT_601_CVG : Int := -852492

/-- ITU-R BT.601 fixed-point red-chroma coefficient used by OpenCV. -/
def ITUR_BT_601_CVR : Int := 1673527

/-- Fixed-point shift used by OpenCV's BT.601 conversion. -/
def ITUR_BT_601_SHIFT : Nat := 20

/-- Convert one (Y, U, V) triple to an RGB triple, modelling the fixed-point
ITU-R BT.601 conversion performed by `cv2.cvtColor(..., COLOR_YUV2RGB_YUY2)`
(an external library call in `video.py`). -/
def yuvToRGB (y u v : Nat) : Nat × Nat × Nat :=
  let uu : Int := (u : Int) - 128
  let vv : Int := (v : Int) - 128
  let yy : Int := max 0 ((y : Int) - 16) * ITUR_BT_601_CY
  let ruv : Int := 2 ^ (ITUR_BT_601_SHIFT - 1) + ITUR_BT_601_CVR * vv
  let guv : Int := 2 ^ (ITUR_BT_601_SHIFT - 1) + ITUR_BT_601_CVG * vv + ITUR_BT_601_CUG * uu
  let buv : Int := 2 ^ (ITUR_BT_601_SHIFT - 1) + ITUR_BT_601_CUB * uu
  (clamp255 ((yy + ruv) / 2 ^ ITUR_BT_601_SHIFT),
   clamp255 ((yy + guv) / 2 ^ ITUR_BT_601_SHIFT),
   clamp255 ((yy + buv) / 2 ^ ITUR_BT_601_SHIFT))

/-- YUY2 (YUV 4:2:2 packed) to RGB conversion: each 4-byte group
`Y0 U Y1 V` yields two RGB pixels sharing the chroma pair, as in
`cv2.cvtColor(yuv_picture, cv2.COLOR_YUV2RGB_YUY2)`. -/
def cvtColorYUV2RGB_YUY2 : List Nat → List (Nat × Nat × Nat)
  | y0 :: u :: y1 :: v :: rest =>
      yuvToRGB y0 u v :: yuvToRGB y1 u v :: cvtColorYUV2RGB_YUY2 rest
  | _ => []

/-- Reinterpret a byte list as little-endian unsigned 16-bit values,
modelling `np.frombuffer(thermal_data, dtype=np.uint16)`. -/
def u16FromBytes : List Nat → List Nat
  | b0 :: b1 :: rest => (b0 + 256 * b1) :: u16FromBytes rest
  | _ => []

/-- The decode step of the `Video.open` loop body (`video.py` lines 246-262):
split the raw frame at its byte midpoint, reshape the upper half as a
`(height/2, width, 2)` YUY2 plane and colour-convert it, reinterpret the
lower half as `(height/2, width)` unsigned 16-bit thermal values.  A numpy
`reshape`/`frombuffer` size mismatch is a raised `ValueError`, modelled as
`Except.error`. -/
def decodeFrame (frame_counter : Nat) (frame : List Nat) : Except String Frame :=
  let frame_mid_pos := frame.length / 2
  let picture_data := frame.take frame_mid_pos
  let thermal_bytes := frame.drop frame_mid_pos
  if picture_data.length ≠ P2Pro_resolution.2 / 2 * P2Pro_resolution.1 * 2 then
    .error "ValueError: cannot reshape yuv array"
  else if thermal_bytes.length % 2 ≠ 0 then
    .error "ValueError: buffer size must be a multiple of element size"
  else if thermal_bytes.length / 2 ≠ P2Pro_resolution.2 / 2 * P2Pro_resolution.1 then
    .error "ValueError: cannot reshape thermal array"
  else
    .ok { frame_num := frame_counter
        , rgb_data := cvtColorYUV2RGB_YUY2 picture_data
        , yuv_data := picture_data
        , thermal_data := u16FromBytes thermal_bytes }

/-- One `FFMpegCapture.read` call (`video.py` lines 52-69) on the raw chunk
the pipe delivered: an empty chunk returns `(False, None)` (modelled
`.ok none`); a chunk of exactly `frame_size` bytes reshapes successfully
(`.ok (some raw)`); any other length makes `np.reshape` raise `ValueError`
(modelled `.error`), which the caller does not catch. -/
def FFMpegCapture.read (frame_size : Nat) (raw_frame : List Nat) :
    Except String (Option (List Nat)) :=
  if raw_frame.length = 0 then .ok none
  else if raw_frame.length ≠ frame_size then
    .error "ValueError: cannot reshape read array"
  else .ok (some raw_frame)

/-- Errors `Video.open` can terminate with. `connectionError` models the
`ConnectionError` raised for an unopened device, `resolutionMismatch` the
`IndexError` raised by the resolution/FPS contract check, and
`reshapeError` an uncaught numpy `ValueError` escaping the read loop. -/
inductive OpenError where
  | connectionError
  | resolutionMismatch
  | reshapeError (msg : String)
deriving DecidableEq

/-- The opened capture device as `Video.open` sees it: whether `isOpened()`
holds, the reported width/height/fps, and the successive raw chunks the
device's `read` calls will deliver. -/
structure CapDevice where
  openedOk : Bool
  width : Nat
  height : Nat
  fps : ℚ
  chunks : List (List Nat)

/-- The `while self.recording` read/decode/publish loop of `Video.open`
(`video.py` lines 234-271), run over a finite list of raw chunks.  Returns
the list of frames published (in order) and, if an uncaught numpy
`ValueError` escaped, the error that crashed the loop.  A read returning
`success=False` is skipped with `continue`; the frame counter increments by
one per decoded (published) frame. -/
def loopCycles (frame_counter : Nat) : List (List Nat) → List Frame × Option OpenError
  | [] => ([], none)
  | chunk :: rest =>
      match FFMpegCapture.read expectedFrameSize chunk with
      | .error e => ([], some (.reshapeError e))
      | .ok none => loopCycles frame_counter rest
      | .ok (some raw) =>
          match decodeFrame frame_counter raw with
          | .error e => ([], some (.reshapeError e))
          | .ok f =>
              let p := loopCycles (frame_counter + 1) rest
              (f :: p.1, p.2)

/-- The body of `Video.open` (`video.py` lines 204-271): fail with
`ConnectionError` if the device is not opened; fail with the `IndexError`
contract mismatch if the reported resolution/FPS differs from the P2 Pro
contract; otherwise enter the streaming loop with the frame counter at 0.
Returns the published frames together with the error (if any) that
terminated `open`. -/
def Video.openCapture (cap : CapDevice) : List Frame × Option OpenError :=
  if cap.openedOk = false then ([], some .connectionError)
  else if (cap.width, cap.height) ≠ P2Pro_resolution ∨ cap.fps ≠ P2Pro_fps then
    ([], some .resolutionMismatch)
  else loopCycles 0 cap.chunks

/-- Test of `queue.Queue.full()` for a queue with the given `maxsize`. -/
def Queue.full (maxsize : Nat) (q : List α) : Bool := decide (maxsize ≤ q.length)

/-- Non-blocking `queue.Queue.get(False)`: returns the oldest element and
the remaining queue, or `none` when the queue is empty (the `queue.Empty`
exception). -/
def Queue.getNowait (q : List α) : Option (α × List α) :=
  match q with
  | [] => none
  | x :: xs => some (x, xs)

/-- Blocking `queue.Queue.put(x)`: `none` models the producer blocking
because the queue is still full; otherwise the element is appended. -/
def Queue.putBlocking (maxsize : Nat) (x : α) (q : List α) : Option (List α) :=
  if maxsize ≤ q.length then none
  else some (q ++ [x])

/-- Publishing one frame to one consumer queue, as in the `for queue in
self.frame_queue` body of `Video.open` (`video.py` lines 264-269): if the
queue is full, drop the currently queued item with `get(False)` first, then
`put` the new frame. -/
def publishToQueue (maxsize : Nat) (f : α) (q : List α) : Option (List α) :=
  if Queue.full maxsize q then
    match Queue.getNowait q with
    | some p => Queue.putBlocking maxsize f p.2
    | none => none
  else Queue.putBlocking maxsize f q

/-- Publishing one frame to every registered consumer queue; `none` models
the producer blocking (or an uncaught `queue.Empty`) on some queue. -/
def publishAll (maxsize : Nat) (f : α) : List (List α) → Option (List (List α))
  | [] => some []
  | q :: qs =>
      match publishToQueue maxsize f q, publishAll maxsize f qs with
      | some q', some qs' => some (q' :: qs')
      | _, _ => none

/-- State of the `Video.open` streaming loop together with its consumer
queues: the per-session `frame_counter` (starts at 0) and, for each of the
`k` registered consumers, its capacity-1 queue content (`none` = empty,
`some n` = holds the frame with sequence number `n`). -/
structure LoopState (k : Nat) where
  frame_counter : Nat
  queues : Fin k → Option Nat

/-- Events of the producer/consumer system: one read cycle of the loop
(`success` is the boolean returned by `cap.read()`), or consumer `i`
dequeuing from its own queue. -/
inductive VideoEv (k : Nat) where
  | read (success : Bool)
  | take (i : Fin k)

/-- True exactly for a successful read cycle (the cycles that decode and
publish one frame, incrementing `frame_counter`). -/
def isSuccessRead {k : Nat} : VideoEv k → Bool
  | .read true => true
  | _ => false

/-- One event step.  A successful read publishes the current
`frame_counter` to every queue (capacity 1 with drop-oldest: the new frame
replaces any unread one) and increments the counter by one; a failed read
is skipped (`continue`); a take returns the queued frame to consumer `i`
if present. The second component is the observation made by a consumer. -/
def stepV {k : Nat} (s : LoopState k) : VideoEv k → LoopState k × Option (Fin k × Nat)
  | .read true =>
      (⟨s.frame_counter + 1, fun _ => some s.frame_counter⟩, none)
  | .read false => (s, none)
  | .take i =>
      match s.queues i with
      | some n => (⟨s.frame_counter, Function.update s.queues i none⟩, some (i, n))
      | none => (s, none)

/-- The trace of consumer observations produced by running a list of
events from a state. -/
def runV {k : Nat} (s : LoopState k) : List (VideoEv k) → List (Fin k × Nat)
  | [] => []
  | e :: es =>
      match stepV s e with
      | (s', some o) => o :: runV s' es
      | (s', none) => runV s' es

/-- The state reached after running a list of events. -/
def runVState {k : Nat} (s : LoopState k) : List (VideoEv k) → LoopState k
  | [] => s
  | e :: es => runVState (stepV s e).1 es

/-- The subsequence of frame numbers observed by consumer `i`. -/
def obsV {k : Nat} (i : Fin k) : List (Fin k × Nat) → List Nat
  | [] => []
  | o :: rest => if o.1 = i then o.2 :: obsV i rest else obsV i rest

/-- Initial loop state: `frame_counter = 0`, all consumer queues empty
(as after `frame_queue = [queue.Queue(1) for _ in range(2)]`). -/
def initLoopState (k : Nat) : LoopState k := ⟨0, fun _ => none⟩

/-- Loop-state invariant: every queued frame number is below the current
counter. -/
def goodV {k : Nat} (s : LoopState k) : Prop :=
  ∀ i n, s.queues i = some n → n < s.frame_counter

/-- Lower bound for the next frame number consumer `i` can observe. -/
def boundV {k : Nat} (s : LoopState k) (i : Fin k) : Nat :=
  match s.queues i with
  | some n => n
  | none => s.frame_counter

/-- State of one `VideoRecorder` instance as far as `start` / `stop`
manipulate it: the `rec_running` flag and (model instrumentation) how many
recording threads have been spawned so far. -/
structure VideoRecorderState where
  rec_running : Bool
  threads_started : Nat
deriving DecidableEq

/-- The body of `VideoRecorder.start` (`recorder.py` lines 177-181): it
unconditionally sets `rec_running = True` and spawns a new thread.  The
returned boolean reports whether a thread was spawned (there is no code
path that rejects the call). -/
def VideoRecorder.start (s : VideoRecorderState) : VideoRecorderState × Bool :=
  ({ rec_running := true, threads_started := s.threads_started + 1 }, true)

/-- The body of `VideoRecorder.stop` (`recorder.py` lines 183-185): it only
clears the `rec_running` flag. -/
def VideoRecorder.stop (s : VideoRecorderState) : VideoRecorderState :=
  { s with rec_running := false }

/-- The wait phase at the top of `VideoRecorder.rec_thread`
(`recorder.py` lines 93-95): `while self.input_queue.empty():
time.sleep(0.01)`.  `input_queue_empty t` tells whether the queue is empty
at poll `t`; the `_rec_running` flag history is passed in but the source
loop condition never consults it.  The result says whether the loop has
exited within `fuel` polls starting at poll `t`. -/
def recThreadWaitExits (_rec_running : Nat → Bool) (input_queue_empty : Nat → Bool) :
    Nat → Nat → Bool
  | _, 0 => false
  | t, fuel + 1 =>
      if input_queue_empty t then
        recThreadWaitExits _rec_running input_queue_empty (t + 1) fuel
      else true

/-- The temporary files of one recording session and whether each is
present on disk. -/
structure TempFiles where
  rgb : Bool
  therm : Bool
  wav : Bool
deriving DecidableEq

/-- The post-merge cleanup of `VideoRecorder.rec_thread` (`recorder.py`
lines 166-173): one `try` block removing `.rgb.mkv`, then (if radiometry)
`.therm.mkv`, then (if audio) `.wav`; the first `FileNotFoundError` jumps
to the `except` handler, which logs a warning, leaving later removes
unexecuted.  Returns the filesystem afterwards and whether the warning was
logged. -/
def cleanup_temp (radiometry audioEnabled : Bool) (fs : TempFiles) : TempFiles × Bool :=
  if fs.rgb = false then (fs, true)
  else
    let fs1 : TempFiles := { fs with rgb := false }
    if radiometry = true ∧ fs1.therm = false then (fs1, true)
    else
      let fs2 : TempFiles := if radiometry then { fs1 with therm := false } else fs1
      if audioEnabled = true ∧ fs2.wav = false then (fs2, true)
      else
        let fs3 : TempFiles := if audioEnabled then { fs2 with wav := false } else fs2
        (fs3, false)

/-- Publishing one decoded frame to the consumer queues, at the level of
Python object references: `frame_obj` is allocated once on the heap and the
same reference (its heap index) is `put` into every queue (`video.py`
lines 256-269).  The heap is the list of allocated `Frame` objects and a
reference is an index into it. -/
def publishRefs (heap : List Frame) (f : Frame) (queues : List (Option Nat)) :
    List Frame × List (Option Nat) :=
  (heap ++ [f], queues.map (fun _ => some heap.length))

/-- Dereferencing a frame reference. -/
def heapRead (heap : List Frame) (r : Nat) : Option Frame := heap[r]?

/-- In-place mutation of the frame object a reference points to (Python
dicts are mutable; e.g. `frame["frame_num"] = ...`). -/
def heapWrite (heap : List Frame) (r : Nat) (f : Frame) : List Frame := heap.set r f

/-- State of one `AudioRecorder`: the buffered chunks appended by the
capture callback, the `recording` flag and whether `self.wf` has been
closed. -/
structure AudioRecorderState where
  frames : List (List Int)
  recording : Bool
  wf_closed : Bool

/-- Model of `np.concatenate(self.frames, axis=0)`: raises `ValueError`
when the chunk list is empty, otherwise concatenates. -/
def np_concatenate (chunks : List (List Int)) : Except String (List Int) :=
  match chunks with
  | [] => .error "ValueError: need at least one array to concatenate"
  | _ => .ok chunks.flatten

/-- The body of `AudioRecorder._write_to_wavefile` (`recorder.py` lines
72-75): concatenate the buffered chunks and write them; the concatenation
error propagates to the caller. Returns the data written. -/
def write_to_wavefile (s : AudioRecorderState) : Except String (List Int) :=
  match np_concatenate s.frames with
  | .error e => .error e
  | .ok audio_data => .ok audio_data

/-- The body of `AudioRecorder.stop` (`recorder.py` lines 49-56): clear the
flag (the record thread then terminates and is joined), write the buffered
frames to the wave file, then close the file.  If `_write_to_wavefile`
raises, the exception propagates and `self.wf.close()` is never reached. -/
def AudioRecorder.stop (s : AudioRecorderState) : Except String AudioRecorderState :=
  let s1 : AudioRecorderState := { s with recording := false }
  match write_to_wavefile s1 with
  | .error e => .error e
  | .ok _ => .ok { s1 with wf_closed := true }

/-! Helper lemmas -/

lemma publishToQueue_cap_one (f : α) (q : List α) (hq : q.length ≤ 1) :
    publishToQueue 1 f q = some [f] := by
  match q, hq with
  | [], _ => simp [publishToQueue, Queue.full, Queue.putBlocking]
  | [x], _ =>
      simp [publishToQueue, Queue.full, Queue.getNowait, Queue.putBlocking]

lemma list_set_getElem?_self (l : List α) (n : Nat) (a : α) :
    (l.set n a)[n]? = (l[n]?).map (fun _ => a) := by
  induction l generalizing n with
  | nil => simp
  | cons x xs ih =>
      cases n with
      | zero => simp
      | succ m => simpa using ih m

/-! C1 -/

/-- C1: for every published frame and every registered capacity-1 consumer
queue, the publish step of `Video.open` never blocks the producer: a full
queue has its queued item discarded first, and after publishing every queue
holds exactly the newest frame. -/
theorem publish_drop_oldest_never_blocks (f : α) (qs : List (List α))
    (hcap : ∀ q ∈ qs, q.length ≤ 1) :
    ∃ qs', publishAll 1 f qs = some qs' ∧ ∀ q' ∈ qs', q' = [f] := by
  induction qs with
  | nil => exact ⟨[], rfl, by simp⟩
  | cons q rest ih =>
      obtain ⟨qs', hrun, hall⟩ := ih (fun q hq => hcap q (by simp [hq]))
      refine ⟨[f] :: qs', ?_, ?_⟩
      · simp [publishAll, publishToQueue_cap_one f q (hcap q (by simp)), hrun]
      · intro q' hq'
        rcases List.mem_cons.mp hq' with h | h
        · exact h
        · exact hall q' h

/-- Witness for C1 at a concrete pair of queues (one full, one empty). -/
theorem publish_drop_oldest_never_blocks_witness :
    ∃ qs', publishAll 1 (5 : Nat) [[3], []] = some qs' ∧ ∀ q' ∈ qs', q' = [5] :=
  publish_drop_oldest_never_blocks 5 [[3], []] (by decide)

/-! C6 -/

/-- C6: the claim says a `stop` issued before any frame arrived still lets
the recording thread terminate.  The code does not satisfy it: the wait
phase of `rec_thread` polls only `input_queue.empty()` and never the
`rec_running` flag, so with a permanently empty queue it never exits — for
every flag history (in particular one where `stop` already cleared the
flag) and any number of polls, the loop is still spinning. -/
theorem rec_thread_stop_before_frame_hangs (rr : Nat → Bool) (t fuel : Nat) :
    recThreadWaitExits rr (fun _ => true) t fuel = false := by
  induction fuel generalizing t with
  | zero => rfl
  | succ n ih => simpa [recThreadWaitExits] using ih (t + 1)

/-! C7 -/

/-- C7 counterexample: from a state with an active session
(`rec_running = true`, one thread spawned), `VideoRecorder.start` is not
rejected — it spawns a second thread; the claim requires the call to be
rejected. -/
theorem videoRecorder_start_not_rejected_counterexample :
    (VideoRecorder.start ⟨true, 1⟩).2 = true
    ∧ (VideoRecorder.start ⟨true, 1⟩).1.threads_started = 2
    ∧ (VideoRecorder.start ⟨true, 1⟩).1.rec_running = true := by
  decide

/-- C7 amended: `VideoRecorder.start` performs no state check — it always
sets `rec_running` and spawns a new thread, even during an active session
(so nothing enforces at most one active session); `VideoRecorder.stop`
only clears the flag and is a no-op on the state when the recorder is not
Recording. -/
theorem videoRecorder_start_stop_unguarded (s : VideoRecorderState) :
    (VideoRecorder.start s).2 = true
    ∧ (VideoRecorder.start s).1.rec_running = true
    ∧ (VideoRecorder.start s).1.threads_started = s.threads_started + 1
    ∧ (s.rec_running = false → VideoRecorder.stop s = s)
    ∧ (VideoRecorder.stop s).rec_running = false := by
  refine ⟨rfl, rfl, rfl, ?_, rfl⟩
  intro h
  simp [VideoRecorder.stop]
  cases s
  simp_all

/-- Witness for C7's amended theorem at the idle state. -/
theorem videoRecorder_start_stop_unguarded_witness :
    (VideoRecorder.start ⟨false, 0⟩).2 = true
    ∧ VideoRecorder.stop ⟨false, 0⟩ = ⟨false, 0⟩ :=
  ⟨(videoRecorder_start_stop_unguarded ⟨false, 0⟩).1,
   (videoRecorder_start_stop_unguarded ⟨false, 0⟩).2.2.2.1 rfl⟩

/-! C8 -/

/-- C8 counterexample: with radiometry and audio enabled and only the
`.rgb.mkv` temp file already absent, cleanup logs the warning but leaves
both `.therm.mkv` and `.wav` undeleted — the claim requires all remaining
temp files to still be deleted. -/
theorem cleanup_stops_at_first_missing_counterexample :
    (cleanup_temp true true ⟨false, true, true⟩).2 = true
    ∧ (cleanup_temp true true ⟨false, true, true⟩).1.therm = true
    ∧ (cleanup_temp true true ⟨false, true, true⟩).1.wav = true := by
  decide

/-- C8 amended: after a successful merge, cleanup deletes all session temp
files and logs no warning exactly when every file the session used is
present; a missing file is caught as a logged warning and never a failure,
but deletion aborts at the first missing file: with the rgb file missing
nothing else is deleted, and with the thermal file missing the wav file is
left in place. -/
theorem cleanup_first_missing_aborts (radiometry audioEnabled : Bool) (fs : TempFiles) :
    ((cleanup_temp radiometry audioEnabled fs).2 = false ↔
      (fs.rgb = true ∧ (radiometry = true → fs.therm = true)
        ∧ (audioEnabled = true → fs.wav = true)))
    ∧ ((cleanup_temp radiometry audioEnabled fs).2 = false →
        ((cleanup_temp radiometry audioEnabled fs).1.rgb = false
          ∧ (radiometry = true → (cleanup_temp radiometry audioEnabled fs).1.therm = false)
          ∧ (audioEnabled = true → (cleanup_temp radiometry audioEnabled fs).1.wav = false)))
    ∧ (fs.rgb = false → cleanup_temp radiometry audioEnabled fs = (fs, true))
    ∧ (fs.rgb = true → radiometry = true → fs.therm = false →
        cleanup_temp radiometry audioEnabled fs = ({ fs with rgb := false }, true)) := by
  obtain ⟨r, t, w⟩ := fs
  cases radiometry <;> cases audioEnabled <;> cases r <;> cases t <;> cases w <;> decide

/-- Witness for C8's amended theorem: all files present (full clean run)
and the rgb-missing abort case. -/
theorem cleanup_first_missing_aborts_witness :
    ((cleanup_temp true true ⟨true, true, true⟩).2 = false ↔
      ((true : Bool) = true ∧ ((true : Bool) = true → (true : Bool) = true)
        ∧ ((true : Bool) = true → (true : Bool) = true)))
    ∧ cleanup_temp true true ⟨false, true, true⟩ = (⟨false, true, true⟩, true) :=
  ⟨(cleanup_first_missing_aborts true true ⟨true, true, true⟩).1,
   (cleanup_first_missing_aborts true true ⟨false, true, true⟩).2.2.1 rfl⟩

/-! C9 -/

/-- C9 counterexample: publishing one frame to the two registered queues
puts the same reference (heap index 0) into both; consumer 0 mutating its
dequeued frame object (setting `frame_num` to 99) makes consumer 1's
dequeued reference read the mutated object, which differs from the
original — the claim says a mutation by one consumer cannot change what
another observes. -/
theorem publish_shared_reference_counterexample :
    (publishRefs [] ⟨0, [], [], []⟩ [none, none]).2 = [some 0, some 0]
    ∧ heapRead (heapWrite (publishRefs [] ⟨0, [], [], []⟩ [none, none]).1 0
        ⟨99, [], [], []⟩) 0 = some ⟨99, [], [], []⟩
    ∧ some (⟨99, [], [], []⟩ : Frame) ≠ some (⟨0, [], [], []⟩ : Frame) := by
  refine ⟨rfl, by decide, by decide⟩

/-- C9 amended: the publish step allocates one `frame_obj` and enqueues the
same reference into every consumer queue (all entries are equal, pointing
at the newly allocated object); mutating the object through that shared
reference changes the frame every consumer's reference dereferences to. -/
theorem publish_shares_single_reference (heap : List Frame) (f : Frame)
    (queues : List (Option Nat)) (i j : Nat)
    (hi : i < queues.length) (hj : j < queues.length) :
    ((publishRefs heap f queues).2)[i]? = some (some heap.length)
    ∧ ((publishRefs heap f queues).2)[i]? = ((publishRefs heap f queues).2)[j]?
    ∧ heapRead (publishRefs heap f queues).1 heap.length = some f
    ∧ (∀ g : Frame,
        heapRead (heapWrite (publishRefs heap f queues).1 heap.length g) heap.length
          = some g) := by
  have hget : ∀ m, m < queues.length →
      ((publishRefs heap f queues).2)[m]? = some (some heap.length) := by
    intro m hm
    simp [publishRefs, List.getElem?_replicate, hm]
  have hlen : heap.length < (heap ++ [f]).length := by simp
  refine ⟨hget i hi, by rw [hget i hi, hget j hj], ?_, ?_⟩
  · simp [publishRefs, heapRead]
  · intro g
    simp only [publishRefs, heapRead, heapWrite]
    rw [list_set_getElem?_self]
    simp [List.getElem?_eq_getElem hlen]

/-- Witness for C9's amended theorem at the concrete two-queue session. -/
theorem publish_shares_single_reference_witness :
    ((publishRefs [] (⟨0, [], [], []⟩ : Frame) [none, none]).2)[0]? = some (some 0)
    ∧ ((publishRefs [] (⟨0, [], [], []⟩ : Frame) [none, none]).2)[0]?
        = ((publishRefs [] (⟨0, [], [], []⟩ : Frame) [none, none]).2)[1]?
    ∧ heapRead (publishRefs [] (⟨0, [], [], []⟩ : Frame) [none, none]).1 0
        = some ⟨0, [], [], []⟩
    ∧ (∀ g : Frame,
        heapRead (heapWrite (publishRefs [] (⟨0, [], [], []⟩ : Frame) [none, none]).1 0 g) 0
          = some g) := by
  have h := publish_shares_single_reference [] (⟨0, [], [], []⟩ : Frame) [none, none] 0 1
    (by decide) (by decide)
  simpa using h

/-! C10 -/

/-- C10: `AudioRecorder.stop` with an empty chunk buffer hits the
`np.concatenate` ValueError inside `_write_to_wavefile`, so the exception
propagates and `self.wf.close()` is never reached; `stop` completes
normally exactly when at least one chunk was captured, and then the wave
file is closed. -/
theorem audio_stop_empty_buffer_raises (s : AudioRecorderState) :
    (s.frames = [] →
      AudioRecorder.stop s = .error "ValueError: need at least one array to concatenate")
    ∧ (s.frames ≠ [] → ∃ s', AudioRecorder.stop s = .ok s'
        ∧ s'.wf_closed = true ∧ s'.recording = false ∧ s'.frames = s.frames) := by
  constructor
  · intro h
    simp [AudioRecorder.stop, write_to_wavefile, np_concatenate, h]
  · intro h
    obtain ⟨fr, rec, wf⟩ := s
    cases fr with
    | nil => exact absurd rfl h
    | cons c cs =>
        exact ⟨⟨c :: cs, false, true⟩,
          by simp [AudioRecorder.stop, write_to_wavefile, np_concatenate], rfl, rfl, rfl⟩

/-- Witness for C10 at an empty and a one-chunk recorder state. -/
theorem audio_stop_empty_buffer_raises_witness :
    AudioRecorder.stop ⟨[], true, false⟩
      = .error "ValueError: need at least one array to concatenate"
    ∧ ∃ s', AudioRecorder.stop ⟨[[1]], true, false⟩ = .ok s'
        ∧ s'.wf_closed = true ∧ s'.recording = false ∧ s'.frames = [[1]] :=
  ⟨(audio_stop_empty_buffer_raises ⟨[], true, false⟩).1 rfl,
   (audio_stop_empty_buffer_raises ⟨[[1]], true, false⟩).2 (List.cons_ne_nil _ _)⟩

/-! C3 and C4 -/

lemma loopCycles_no_config_error (cs : List (List Nat)) :
    ∀ n, (loopCycles n cs).2 ≠ some OpenError.resolutionMismatch
      ∧ (loopCycles n cs).2 ≠ some OpenError.connectionError := by
  induction cs with
  | nil => intro n; simp [loopCycles]
  | cons c rest ih =>
      intro n
      cases hr : FFMpegCapture.read expectedFrameSize c with
      | error e => simp [loopCycles, hr]
      | ok o =>
          cases o with
          | none => simpa [loopCycles, hr] using ih n
          | some raw =>
              cases hd : decodeFrame n raw with
              | error e => simp [loopCycles, hr, hd]
              | ok f => simpa [loopCycles, hr, hd] using ih (n + 1)

/-- C4: given an opened capture device, `Video.open` raises the fatal
resolution/FPS contract error (`IndexError`, not retried) exactly when the
reported resolution differs from 256x384 or the frame rate differs from
25 fps, and on a mismatch the streaming loop is never entered: no frame is
ever published. -/
theorem open_mismatch_fatal_iff (cap : CapDevice) (hopen : cap.openedOk = true) :
    ((Video.openCapture cap).2 = some OpenError.resolutionMismatch ↔
      ((cap.width, cap.height) ≠ P2Pro_resolution ∨ cap.fps ≠ P2Pro_fps))
    ∧ (((cap.width, cap.height) ≠ P2Pro_resolution ∨ cap.fps ≠ P2Pro_fps) →
        (Video.openCapture cap).1 = []) := by
  have hnotfalse : ¬ cap.openedOk = false := by simp [hopen]
  refine ⟨⟨?_, ?_⟩, ?_⟩
  · intro h
    by_cases hc : (cap.width, cap.height) ≠ P2Pro_resolution ∨ cap.fps ≠ P2Pro_fps
    · exact hc
    · exfalso
      rw [Video.openCapture, if_neg hnotfalse, if_neg hc] at h
      exact (loopCycles_no_config_error cap.chunks 0).1 h
  · intro h
    rw [Video.openCapture, if_neg hnotfalse, if_pos h]
  · intro h
    rw [Video.openCapture, if_neg hnotfalse, if_pos h]

/-- Witness for C4 at the spec's scenario device: opened, reporting
320x240 at 30 fps, which mismatches the P2 Pro contract. -/
theorem open_mismatch_fatal_iff_witness :
    ((Video.openCapture ⟨true, 320, 240, 30, []⟩).2 = some OpenError.resolutionMismatch ↔
      (((320 : Nat), (240 : Nat)) ≠ P2Pro_resolution ∨ (30 : ℚ) ≠ P2Pro_fps))
    ∧ ((((320 : Nat), (240 : Nat)) ≠ P2Pro_resolution ∨ (30 : ℚ) ≠ P2Pro_fps) →
        (Video.openCapture ⟨true, 320, 240, 30, []⟩).1 = []) :=
  open_mismatch_fatal_iff ⟨true, 320, 240, 30, []⟩ rfl

/-- C3 counterexample: a cycle delivering a short nonzero raw buffer (here
2 bytes) does not have its cycle discarded with the loop continuing — the
numpy reshape `ValueError` is uncaught and crashes the read loop, so the
following cycle is never processed (the loop result carries the escaped
error instead of `none`). -/
theorem short_buffer_crashes_loop_counterexample :
    loopCycles 0 [[0, 0], []]
      = ([], some (OpenError.reshapeError "ValueError: cannot reshape read array"))
    ∧ ¬ (loopCycles 0 [[0, 0], []]).2 = none := by
  exact ⟨rfl, by decide⟩

/-- C3 amended: a zero-length read is reported as `success=False` and that
cycle is discarded (the loop continues with the next cycle), but a
malformed short nonzero buffer raises an uncaught reshape `ValueError`
that terminates the loop and propagates to the caller, publishing
nothing. -/
theorem read_cycle_malformed_buffer (n : Nat) (chunk : List Nat) (cs : List (List Nat))
    (h0 : chunk.length ≠ 0) (hlen : chunk.length ≠ expectedFrameSize) :
    loopCycles n ([] :: cs) = loopCycles n cs
    ∧ loopCycles n (chunk :: cs)
        = ([], some (OpenError.reshapeError "ValueError: cannot reshape read array")) := by
  constructor
  · simp [loopCycles, FFMpegCapture.read]
  · simp [loopCycles, FFMpegCapture.read, h0, hlen]

/-- Witness for C3's amended theorem at a concrete 2-byte chunk. -/
theorem read_cycle_malformed_buffer_witness :
    loopCycles 0 ([] :: []) = loopCycles 0 []
    ∧ loopCycles 0 ([0, 0] :: [])
        = ([], some (OpenError.reshapeError "ValueError: cannot reshape read array")) :=
  read_cycle_malformed_buffer 0 [0, 0] [] (by decide) (by decide)

/-! C5 -/

lemma runV_bound_pairwise {k : Nat} (evs : List (VideoEv k)) :
    ∀ s : LoopState k, goodV s → ∀ i : Fin k,
      (∀ x ∈ obsV i (runV s evs), boundV s i ≤ x)
      ∧ (obsV i (runV s evs)).Pairwise (· < ·) := by
  induction evs with
  | nil =>
      intro s hs i
      refine ⟨?_, ?_⟩
      · intro x hx; simp [runV, obsV] at hx
      · simp [runV, obsV]
  | cons e es ih =>
      intro s hs i
      cases e with
      | read success =>
          cases success with
          | false => simpa [runV, stepV] using ih s hs i
          | true =>
              have hs' : goodV (⟨s.frame_counter + 1,
                  fun _ => some s.frame_counter⟩ : LoopState k) := by
                intro j m hj
                have hj' : s.frame_counter = m := Option.some.inj hj
                show m < s.frame_counter + 1
                omega
              have h := ih _ hs' i
              have hble : boundV s i ≤ s.frame_counter := by
                unfold boundV
                cases hq : s.queues i with
                | some m => exact Nat.le_of_lt (hs i m hq)
                | none => exact Nat.le_refl _
              have hb' : boundV (⟨s.frame_counter + 1,
                  fun _ => some s.frame_counter⟩ : LoopState k) i = s.frame_counter := rfl
              refine ⟨?_, ?_⟩
              · intro x hx
                have hx' : x ∈ obsV i (runV (⟨s.frame_counter + 1,
                    fun _ => some s.frame_counter⟩ : LoopState k) es) := by
                  simpa [runV, stepV] using hx
                have := h.1 x hx'
                omega
              · simpa [runV, stepV] using h.2
      | take j =>
          cases hq : s.queues j with
          | none => simpa [runV, stepV, hq] using ih s hs i
          | some n =>
              have hs' : goodV (⟨s.frame_counter,
                  Function.update s.queues j none⟩ : LoopState k) := by
                intro m x hm
                have hm' : Function.update s.queues j none m = some x := hm
                show x < s.frame_counter
                by_cases hmj : m = j
                · subst hmj
                  rw [Function.update_same] at hm'
                  exact Option.noConfusion hm'
                · rw [Function.update_noteq hmj] at hm'
                  exact hs m x hm'
              have h := ih _ hs' i
              have hnc : n < s.frame_counter := hs j n hq
              have hrun : runV s (VideoEv.take j :: es)
                  = (j, n) :: runV (⟨s.frame_counter,
                      Function.update s.queues j none⟩ : LoopState k) es := by
                simp [runV, stepV, hq]
              by_cases hij : j = i
              · subst hij
                have hbj : boundV s j = n := by simp [boundV, hq]
                have hb' : boundV (⟨s.frame_counter,
                    Function.update s.queues j none⟩ : LoopState k) j = s.frame_counter := by
                  simp [boundV, Function.update_same]
                rw [hrun]
                have hobs : obsV j ((j, n) :: runV (⟨s.frame_counter,
                    Function.update s.queues j none⟩ : LoopState k) es)
                    = n :: obsV j (runV (⟨s.frame_counter,
                        Function.update s.queues j none⟩ : LoopState k) es) := by
                  simp [obsV]
                rw [hobs, hbj]
                refine ⟨?_, ?_⟩
                · intro x hx
                  rcases List.mem_cons.mp hx with hx | hx
                  · omega
                  · have := h.1 x hx
                    omega
                · refine List.Pairwise.cons ?_ h.2
                  intro x hx
                  have := h.1 x hx
                  omega
              · have hbi : boundV (⟨s.frame_counter,
                    Function.update s.queues j none⟩ : LoopState k) i = boundV s i := by
                  simp [boundV, Function.update_noteq (fun hh => hij hh.symm)]
                rw [hrun]
                have hobs : obsV i ((j, n) :: runV (⟨s.frame_counter,
                    Function.update s.queues j none⟩ : LoopState k) es)
                    = obsV i (runV (⟨s.frame_counter,
                        Function.update s.queues j none⟩ : LoopState k) es) := by
                  simp [obsV, hij]
                rw [hobs]
                refine ⟨?_, h.2⟩
                intro x hx
                have := h.1 x hx
                omega

lemma runVState_counter {k : Nat} (evs : List (VideoEv k)) :
    ∀ s : LoopState k,
      (runVState s evs).frame_counter = s.frame_counter + evs.countP isSuccessRead := by
  induction evs with
  | nil => intro s; simp [runVState]
  | cons e es ih =>
      intro s
      cases e with
      | read success =>
          cases success with
          | false => simp [runVState, stepV, List.countP_cons, isSuccessRead, ih]
          | true =>
              simp [runVState, stepV, List.countP_cons, isSuccessRead, ih]
              omega
      | take j =>
          cases hq : s.queues j with
          | none => simp [runVState, stepV, hq, List.countP_cons, isSuccessRead, ih]
          | some n => simp [runVState, stepV, hq, List.countP_cons, isSuccessRead, ih]

/-- C5: running the read/decode/publish loop from its initial state (the
per-session counter starts at 0 and increments by exactly one per
published frame), the frame numbers any single consumer observes from its
capacity-1 queue form a strictly increasing list — non-decreasing with no
duplicates, with gaps exactly where overflowed frames were dropped. -/
theorem consumer_observations_strictly_increasing {k : Nat}
    (evs : List (VideoEv k)) (i : Fin k) :
    (obsV i (runV (initLoopState k) evs)).Pairwise (· < ·)
    ∧ (initLoopState k).frame_counter = 0
    ∧ (runVState (initLoopState k) evs).frame_counter = evs.countP isSuccessRead := by
  have hinit : goodV (initLoopState k) := by
    intro i n h
    exact Option.noConfusion h
  refine ⟨(runV_bound_pairwise evs (initLoopState k) hinit i).2, rfl, ?_⟩
  simpa [initLoopState] using runVState_counter evs (initLoopState k)

/-! C2 -/

lemma clamp255_lt (x : Int) : clamp255 x < 256 := by
  unfold clamp255
  omega

lemma yuvToRGB_bound (y u v : Nat) :
    (yuvToRGB y u v).1 < 256 ∧ (yuvToRGB y u v).2.1 < 256 ∧ (yuvToRGB y u v).2.2 < 256 :=
  ⟨clamp255_lt _, clamp255_lt _, clamp255_lt _⟩

lemma cvtColor_length : ∀ (kk : Nat) (l : List Nat), l.length = 4 * kk →
    (cvtColorYUV2RGB_YUY2 l).length = 2 * kk := by
  intro kk
  induction kk with
  | zero =>
      intro l hl
      cases l with
      | nil => simp [cvtColorYUV2RGB_YUY2]
      | cons a l1 => simp at hl
  | succ m ih =>
      intro l hl
      cases l with
      | nil => simp at hl
      | cons y0 l1 =>
          cases l1 with
          | nil => simp at hl; omega
          | cons u l2 =>
              cases l2 with
              | nil => simp at hl; omega
              | cons y1 l3 =>
                  cases l3 with
                  | nil => simp at hl; omega
                  | cons v rest =>
                      have hr : rest.length = 4 * m := by simp at hl; omega
                      simp [cvtColorYUV2RGB_YUY2, ih rest hr]
                      omega

lemma cvtColor_mem_bound : ∀ (l : List Nat) (p : Nat × Nat × Nat),
    p ∈ cvtColorYUV2RGB_YUY2 l → p.1 < 256 ∧ p.2.1 < 256 ∧ p.2.2 < 256
  | y0 :: u :: y1 :: v :: rest, p, hp => by
      rcases List.mem_cons.mp hp with h | hp2
      · subst h; exact yuvToRGB_bound y0 u v
      · rcases List.mem_cons.mp hp2 with h | hp3
        · subst h; exact yuvToRGB_bound y1 u v
        · exact cvtColor_mem_bound rest p hp3
  | [], p, hp => by simp [cvtColorYUV2RGB_YUY2] at hp
  | [a], p, hp => by simp [cvtColorYUV2RGB_YUY2] at hp
  | [a, b], p, hp => by simp [cvtColorYUV2RGB_YUY2] at hp
  | [a, b, c], p, hp => by simp [cvtColorYUV2RGB_YUY2] at hp

lemma u16FromBytes_length : ∀ (l : List Nat), (u16FromBytes l).length = l.length / 2
  | b0 :: b1 :: rest => by
      simp [u16FromBytes, u16FromBytes_length rest]
      omega
  | [] => by simp [u16FromBytes]
  | [b] => by simp [u16FromBytes]

lemma u16FromBytes_mem_bound : ∀ (l : List Nat), (∀ b ∈ l, b < 256) →
    ∀ v ∈ u16FromBytes l, v < 65536
  | b0 :: b1 :: rest, hb, v, hv => by
      rcases List.mem_cons.mp hv with h | h
      · have h0 : b0 < 256 := hb b0 (by simp)
        have h1 : b1 < 256 := hb b1 (by simp)
        subst h
        omega
      · exact u16FromBytes_mem_bound rest (fun b hbm => hb b (by simp [hbm])) v h
  | [], _, v, hv => by simp [u16FromBytes] at hv
  | [b], _, v, hv => by simp [u16FromBytes] at hv

lemma u16FromBytes_getElem? : ∀ (l : List Nat) (i : Nat),
    (u16FromBytes l)[i]?
      = (l[2 * i]?).bind (fun b0 => (l[2 * i + 1]?).map (fun b1 => b0 + 256 * b1))
  | b0 :: b1 :: rest, 0 => by simp [u16FromBytes]
  | b0 :: b1 :: rest, (i + 1) => by
      have ih := u16FromBytes_getElem? rest i
      have e1 : (u16FromBytes (b0 :: b1 :: rest))[i + 1]? = (u16FromBytes rest)[i]? := by
        simp [u16FromBytes]
      have e2 : (b0 :: b1 :: rest : List Nat)[2 * (i + 1)]? = rest[2 * i]? := by
        have h : 2 * (i + 1) = 2 * i + 1 + 1 := by omega
        rw [h, List.getElem?_cons_succ, List.getElem?_cons_succ]
      have e3 : (b0 :: b1 :: rest : List Nat)[2 * (i + 1) + 1]? = rest[2 * i + 1]? := by
        have h : 2 * (i + 1) + 1 = 2 * i + 1 + 1 + 1 := by omega
        rw [h, List.getElem?_cons_succ, List.getElem?_cons_succ]
      rw [e1, ih, e2, e3]
  | [], i => by simp [u16FromBytes]
  | [b], i => by
      cases i with
      | zero => simp [u16FromBytes]
      | succ m =>
          have h1 : ([b] : List Nat)[2 * (m + 1)]? = none :=
            List.getElem?_eq_none (by simp only [List.length_singleton]; omega)
          simp [u16FromBytes, h1]

/-- C2: for every raw buffer of exactly 256*384*2 bytes, the decode step of
`Video.open` splits it at the byte midpoint and yields (all tagged with the
same sequence number) an RGB array that is the YUV 4:2:2 (YUY2) to RGB
conversion of the upper half — 192*256 pixels of 8-bit components — and a
thermal array of 192*256 unsigned 16-bit values reinterpreted directly
(little-endian) from the lower half. -/
theorem decode_exact_buffer (n : Nat) (buf : List Nat)
    (hlen : buf.length = 256 * 384 * 2) (hbytes : ∀ b ∈ buf, b < 256) :
    decodeFrame n buf = .ok
      { frame_num := n
      , rgb_data := cvtColorYUV2RGB_YUY2 (buf.take (buf.length / 2))
      , yuv_data := buf.take (buf.length / 2)
      , thermal_data := u16FromBytes (buf.drop (buf.length / 2)) }
    ∧ (cvtColorYUV2RGB_YUY2 (buf.take (buf.length / 2))).length = 192 * 256
    ∧ (∀ p ∈ cvtColorYUV2RGB_YUY2 (buf.take (buf.length / 2)),
        p.1 < 256 ∧ p.2.1 < 256 ∧ p.2.2 < 256)
    ∧ (u16FromBytes (buf.drop (buf.length / 2))).length = 192 * 256
    ∧ (∀ v ∈ u16FromBytes (buf.drop (buf.length / 2)), v < 65536)
    ∧ (∀ i : Nat, (u16FromBytes (buf.drop (buf.length / 2)))[i]?
        = (buf[98304 + 2 * i]?).bind
            (fun b0 => (buf[98304 + (2 * i + 1)]?).map (fun b1 => b0 + 256 * b1))) := by
  have hmid : buf.length / 2 = 98304 := by rw [hlen]
  have hpl : (buf.take (buf.length / 2)).length = 98304 := by
    rw [List.length_take, hlen]
    omega
  have htl : (buf.drop (buf.length / 2)).length = 98304 := by
    rw [List.length_drop, hlen]
  refine ⟨?_, ?_, ?_, ?_, ?_, ?_⟩
  · simp [decodeFrame, hpl, htl, P2Pro_resolution]
  · have h := cvtColor_length 24576 (buf.take (buf.length / 2)) (by rw [hpl])
    simpa using h
  · exact fun p hp => cvtColor_mem_bound _ p hp
  · have h := u16FromBytes_length (buf.drop (buf.length / 2))
    rw [htl] at h
    simpa using h
  · exact u16FromBytes_mem_bound _ (fun b hb => hbytes b (List.drop_subset _ _ hb))
  · intro i
    rw [u16FromBytes_getElem?, List.getElem?_drop, List.getElem?_drop, hmid]

/-- Witness for C2 at the all-zero buffer of the exact expected length. -/
theorem decode_exact_buffer_witness :
    decodeFrame 0 (List.replicate (256 * 384 * 2) 0) = .ok
      { frame_num := 0
      , rgb_data := cvtColorYUV2RGB_YUY2 ((List.replicate (256 * 384 * 2) 0).take
          ((List.replicate (256 * 384 * 2) 0).length / 2))
      , yuv_data := (List.replicate (256 * 384 * 2) 0).take
          ((List.replicate (256 * 384 * 2) 0).length / 2)
      , thermal_data := u16FromBytes ((List.replicate (256 * 384 * 2) 0).drop
          ((List.replicate (256 * 384 * 2) 0).length / 2)) }
    ∧ (cvtColorYUV2RGB_YUY2 ((List.replicate (256 * 384 * 2) 0).take
        ((List.replicate (256 * 384 * 2) 0).length / 2))).length = 192 * 256
    ∧ (∀ p ∈ cvtColorYUV2RGB_YUY2 ((List.replicate (256 * 384 * 2) 0).take
        ((List.replicate (256 * 384 * 2) 0).length / 2)),
        p.1 < 256 ∧ p.2.1 < 256 ∧ p.2.2 < 256)
    ∧ (u16FromBytes ((List.replicate (256 * 384 * 2) 0).drop
        ((List.replicate (256 * 384 * 2) 0).length / 2))).length = 192 * 256
    ∧ (∀ v ∈ u16FromBytes ((List.replicate (256 * 384 * 2) 0).drop
        ((List.replicate (256 * 384 * 2) 0).length / 2)), v < 65536)
    ∧ (∀ i : Nat, (u16FromBytes ((List.replicate (256 * 384 * 2) 0).drop
        ((List.replicate (256 * 384 * 2) 0).length / 2)))[i]?
        = ((List.replicate (256 * 384 * 2) 0)[98304 + 2 * i]?).bind
            (fun b0 => ((List.replicate (256 * 384 * 2) 0)[98304 + (2 * i + 1)]?).map
              (fun b1 => b0 + 256 * b1))) :=
  decode_exact_buffer 0 (List.replicate (256 * 384 * 2) 0)
    (List.length_replicate _ _)
    (fun b hb => (List.eq_of_mem_replicate hb) ▸ (by norm_num : (0 : Nat) < 256))
